import Mathlib

/-!
Shallow embedding of the `godocker` package (`docker.go`): a thin wrapper
around a container engine client.  Pure data flow and control flow of each
operation is modelled; the external engine, the filesystem and the external
library helpers are modelled as explicit inputs to the operations.
-/

set_option autoImplicit false

namespace GoDocker

/-- A Go `error` value as it flows through this package.  `notExist p` models
the `os.IsNotExist`-satisfying error from `os.Lstat`/`os.Open` on path `p`;
`jsonError c m` models a `*jsonmessage.JSONError`; `msg s` models any other
error whose `Error()` text is `s` (including `errors.New` and `fmt.Errorf`
results). -/
inductive GoError where
  | notExist (p : String)
  | jsonError (code : Int) (message : String)
  | msg (s : String)
  deriving DecidableEq, Repr

/-- The `Error()` text of a `GoError`, used where the source formats an error
with `%s`/`%v`. -/
def GoError.text : GoError → String
  | .notExist p => "lstat " ++ p ++ ": no such file or directory"
  | .jsonError _ m => m
  | .msg s => s

/-- One decoded `jsonmessage.JSONMessage`: only the fields `detectErrorMessage`
reads are modelled. -/
structure JSONMessage where
  Error : Option (Int × String)
  ErrorMessage : String
  deriving DecidableEq, Repr

/-- How decoding of a response stream ends: either cleanly at `io.EOF`, or
with a (non-EOF) decode error. -/
inductive StreamTerm where
  | eof
  | decodeFail (e : GoError)
  deriving DecidableEq, Repr

/-- A response stream, as seen through `json.Decoder.Decode`: the sequence of
messages that decode successfully, followed by how decoding terminates. -/
structure RespStream where
  msgs : List JSONMessage
  term : StreamTerm
  deriving DecidableEq, Repr

/-- The embedded error carried by a single message, if any: the `Error` object
when present, otherwise an error built from a non-empty `ErrorMessage`. -/
def embeddedError (jm : JSONMessage) : Option GoError :=
  match jm.Error with
  | some je => some (GoError.jsonError je.1 je.2)
  | none => if jm.ErrorMessage.length > 0 then some (GoError.msg jm.ErrorMessage) else none

/-- The error produced by the stream terminator: `none` at EOF, the decode
error otherwise. -/
def termError : StreamTerm → Option GoError
  | .eof => none
  | .decodeFail e => some e

/-- Loop of `detectErrorMessage` over the successfully decoded messages. -/
def detectErrorLoop : List JSONMessage → StreamTerm → Option GoError
  | [], t => termError t
  | jm :: rest, t =>
    match jm.Error with
    | some je => some (GoError.jsonError je.1 je.2)
    | none =>
      if jm.ErrorMessage.length > 0 then some (GoError.msg jm.ErrorMessage)
      else detectErrorLoop rest t

/-- `detectErrorMessage` (docker.go:301-326): decode messages in order; return
the message's `Error` if present, else an error from a non-empty
`ErrorMessage`; stop with `none` at `io.EOF`; return the decode error on any
other decode failure. -/
def detectErrorMessage (s : RespStream) : Option GoError :=
  detectErrorLoop s.msgs s.term

theorem detectErrorLoop_eq_findSome (l : List JSONMessage) (t : StreamTerm) :
    detectErrorLoop l t = (l.findSome? embeddedError).orElse fun _ => termError t := by
  induction l with
  | nil => simp [detectErrorLoop, List.findSome?]
  | cons jm rest ih =>
    simp only [detectErrorLoop, List.findSome?]
    cases h : jm.Error with
    | some je => simp [embeddedError, h]
    | none =>
      by_cases hm : jm.ErrorMessage.length > 0
      · simp [embeddedError, h, hm]
      · simp [embeddedError, h, hm, ih]

theorem detectErrorMessage_eq_findSome (s : RespStream) :
    detectErrorMessage s = (s.msgs.findSome? embeddedError).orElse fun _ => termError s.term :=
  detectErrorLoop_eq_findSome s.msgs s.term

theorem detectErrorMessage_eq_none_iff (s : RespStream) :
    detectErrorMessage s = none ↔
      s.term = StreamTerm.eof ∧ ∀ jm ∈ s.msgs, embeddedError jm = none := by
  rw [detectErrorMessage_eq_findSome]
  cases hf : s.msgs.findSome? embeddedError with
  | some e =>
    simp only [Option.orElse]
    constructor
    · intro h; exact absurd h (by simp)
    · rintro ⟨_, hall⟩
      obtain ⟨jm, hjm, he⟩ := List.exists_of_findSome?_eq_some hf
      exact absurd (hall jm hjm) (by simp [he])
  | none =>
    simp only [Option.orElse]
    cases t : s.term with
    | eof =>
      simp [termError]
      exact fun jm hjm => List.findSome?_eq_none_iff.mp hf jm hjm
    | decodeFail e => simp [termError]

/-! ### Filesystem and path model for `CreateTar` -/

/-- `defaultDockerfile` constant (docker.go:27). -/
def defaultDockerfile : String := "Dockerfile"

/-- A single-quote character, used in a wrapped error message below. -/
def squote : String := String.singleton (Char.ofNat 39)

/-- `strings.ToLower` for the ASCII names used here, written over the
character list so that it evaluates by `rfl`. -/
def strToLower (s : String) : String := String.mk (s.data.map Char.toLower)

/-- `filepath.IsAbs` on unix: the path begins with a slash. -/
def isAbsPath (p : String) : Bool :=
  match p.data with
  | c :: _ => c = '/'
  | [] => false

/-- `filepath.Join`/`path.Join` for the already-clean paths this package
builds: concatenation with a slash, dropping empty components. -/
def joinPath (a b : String) : String :=
  if a = "" then b else if b = "" then a else a ++ "/" ++ b

/-- `filepath.Rel base target` for the paths this package builds: strip
`base ++ "/"` from the front of `target`. -/
def relPath (base target : String) : String :=
  if (base ++ "/").data.isPrefixOf target.data then
    String.mk (target.data.drop (base.data.length + 1))
  else target

/-- The local filesystem as `CreateTar` observes it: the working directory
(for `filepath.Abs`), the set of existing paths (for `os.Lstat`), paths whose
`os.Open` fails with an error that does not satisfy `os.IsNotExist`, and the
patterns `dockerignore.ReadAll` yields from the `.dockerignore` file when it
exists. -/
structure FS where
  cwd : String
  files : List String
  openFailures : List (String × GoError)
  ignorePatterns : List String
  deriving DecidableEq, Repr

/-- `filepath.Abs`: the path itself when absolute, else joined to the working
directory. -/
def fsAbs (fs : FS) (p : String) : String :=
  if isAbsPath p then p else joinPath fs.cwd p

/-- `os.Lstat` succeeds exactly on the recorded existing paths. -/
def lstatExists (fs : FS) (p : String) : Bool :=
  fs.files.contains (fsAbs fs p)

/-- The non-`IsNotExist` error of `os.Open` on `p`, when the filesystem has
one recorded for it. -/
def openFailure (fs : FS) (p : String) : Option GoError :=
  fs.openFailures.lookup (fsAbs fs p)

/-- Behaviour of the external docker library helpers `CreateTar` calls:
`fileutils.Matches` (its error result is discarded by the source) and
`builder.ValidateContextDirectory` (`none` means the directory validates). -/
structure LibEnv where
  fileMatches : String → List String → Bool
  validateContext : String → List String → Option GoError

/-- docker.go:215-237: the dockerfile name and on-disk filename before
normalisation.  An explicit `dockerfile` argument is joined to the context
directory; an empty one falls back to `Dockerfile` in the absolute context
directory, downgrading to an existing lowercase `dockerfile` only when the
capitalised name is absent. -/
def resolveDockerfileName (fs : FS) (contextDirectory dockerfile : String) :
    String × String :=
  let dockerfileName := joinPath contextDirectory dockerfile
  let filename := dockerfileName
  if dockerfile = "" then
    let absContextDirectory := fsAbs fs contextDirectory
    let dn := defaultDockerfile
    let fn := joinPath absContextDirectory dn
    if lstatExists fs fn = false then
      let tmpFN := joinPath absContextDirectory (strToLower dn)
      if lstatExists fs tmpFN then (strToLower dn, tmpFN) else (dn, fn)
    else (dn, fn)
  else (dockerfileName, filename)

/-- The `archive.TarOptions` content `CreateTar` hands to
`archive.TarWithOptions` (compression is constantly `Uncompressed`), together
with the normalised dockerfile name it computed. -/
structure TarOptions where
  excludePatterns : List String
  includeFiles : List String
  dockerfileName : String
  deriving DecidableEq, Repr

/-- docker.go:262-274: open the context's `.dockerignore`; a missing file is
not an error and yields no exclusion patterns; any other open error is
returned; otherwise `dockerignore.ReadAll` yields the patterns. -/
def readIgnorePatterns (fs : FS) (contextDirectory : String) :
    Except GoError (List String) :=
  let dockerIgnorePath := joinPath contextDirectory ".dockerignore"
  match openFailure fs dockerIgnorePath with
  | some e => .error e
  | none =>
    if lstatExists fs dockerIgnorePath then .ok fs.ignorePatterns else .ok []

/-- `CreateTar` (docker.go:214-299).  `archive.CanonicalTarNameForPath` is the
identity on linux and cannot fail there. -/
def CreateTar (env : LibEnv) (fs : FS) (contextDirectory dockerfile : String) :
    Except GoError TarOptions :=
  let absContextDirectory := fsAbs fs contextDirectory
  let resolved := resolveDockerfileName fs contextDirectory dockerfile
  let origDockerfile := resolved.1
  let filename := fsAbs fs resolved.2
  let dockerfileName := relPath absContextDirectory filename
  if lstatExists fs filename = false then
    .error (GoError.msg ("Cannot locate Dockerfile: " ++ origDockerfile))
  else
    match readIgnorePatterns fs contextDirectory with
    | .error e => .error e
    | .ok excludes =>
      let keepThem1 := env.fileMatches ".dockerignore" excludes
      let keepThem2 := env.fileMatches dockerfileName excludes
      let includes :=
        if keepThem1 || keepThem2 then ["."] ++ [".dockerignore", dockerfileName]
        else ["."]
      match env.validateContext contextDirectory excludes with
      | some e =>
        .error (GoError.msg ("Error checking context is accessible: " ++ squote ++
          e.text ++ squote ++ ". Please check permissions and try again."))
      | none =>
        .ok { excludePatterns := excludes, includeFiles := includes,
              dockerfileName := dockerfileName }

/-! ### Client construction and registry auth -/

/-- The base64url alphabet used by Go's `base64.URLEncoding`. -/
def base64urlChars : List Char :=
  "ABCDEFGHIJKLMNOPQRSTUVWXYZabcdefghijklmnopqrstuvwxyz0123456789-_".data

/-- The base64url digit for a 6-bit value. -/
def b64Char (n : Nat) : Char := base64urlChars.getD n (Char.ofNat 65)

/-- Go's `base64.URLEncoding.EncodeToString` over a byte list (with `=`
padding). -/
def base64urlEncode : List Nat → String
  | [] => ""
  | [b1] =>
    String.mk [b64Char (b1 / 4), b64Char (b1 % 4 * 16), '=', '=']
  | [b1, b2] =>
    String.mk [b64Char (b1 / 4), b64Char (b1 % 4 * 16 + b2 / 16),
               b64Char (b2 % 16 * 4), '=']
  | b1 :: b2 :: b3 :: rest =>
    String.mk [b64Char (b1 / 4), b64Char (b1 % 4 * 16 + b2 / 16),
               b64Char (b2 % 16 * 4 + b3 / 64), b64Char (b3 % 64)] ++
    base64urlEncode rest

/-- The bytes of a string (the configuration strings handled here are ASCII,
where UTF-8 bytes coincide with code points). -/
def strBytes (s : String) : List Nat := s.data.map Char.toNat

/-- A double-quote character. -/
def dquoteChar : Char := Char.ofNat 34

/-- A backslash character. -/
def backslashChar : Char := Char.ofNat 92

/-- JSON escaping of one character (quote and backslash, the cases relevant to
credential strings). -/
def jsonEscapeChar (c : Char) : List Char :=
  if c = dquoteChar then [backslashChar, dquoteChar]
  else if c = backslashChar then [backslashChar, backslashChar]
  else [c]

/-- A JSON string literal. -/
def jsonQuote (s : String) : String :=
  String.singleton dquoteChar ++ String.mk (s.data.map jsonEscapeChar).flatten ++
    String.singleton dquoteChar

/-- `json.Marshal` of a `types.AuthConfig` holding only `Username` and
`Password` (both tagged `omitempty`; all other fields are zero). -/
def marshalAuthConfig (username password : String) : String :=
  let fields :=
    (if username = "" then [] else [jsonQuote "username" ++ ":" ++ jsonQuote username]) ++
    (if password = "" then [] else [jsonQuote "password" ++ ":" ++ jsonQuote password])
  "\x7b" ++ String.intercalate "," fields ++ "\x7d"

/-- The `registryAuthString` computed by `NewClient` (docker.go:80-85). -/
def mkRegistryAuthString (username password : String) : String :=
  base64urlEncode (strBytes (marshalAuthConfig username password))

/-- `types.AuthConfig`, restricted to the fields this package sets. -/
structure AuthConfig where
  Username : String
  Password : String
  deriving DecidableEq, Repr

/-- `Configs` (docker.go:67-72). -/
structure Configs where
  Host : String
  Registry : String
  User : String
  Passwd : String
  deriving DecidableEq, Repr

/-- `dockerCmd` (docker.go:55-64), without the opaque `*client.Client`
handle. -/
structure dockerCmd where
  dockerHost : String
  registry : String
  registryAuthString : String
  registryAuthMap : List (String × AuthConfig)
  noCache : Bool
  forceRm : Bool
  pull : Bool
  deriving DecidableEq, Repr

/-- `NewClient` (docker.go:75-101) on the path where `client.NewClient`
succeeds (on the other path the underlying error is returned and no client is
built). -/
def NewClient (cfg : Configs) : dockerCmd :=
  { dockerHost := cfg.Host
    registry := cfg.Registry
    registryAuthString := mkRegistryAuthString cfg.User cfg.Passwd
    registryAuthMap := [(cfg.Registry, { Username := cfg.User, Password := cfg.Passwd })]
    noCache := true
    forceRm := true
    pull := true }

/-! ### Engine requests and operation executions -/

/-- `types.ImageBuildOptions`, restricted to the fields this package sets. -/
structure ImageBuildOptions where
  Tags : List String
  NoCache : Bool
  Remove : Bool
  ForceRemove : Bool
  PullParent : Bool
  Dockerfile : String
  AuthConfigs : List (String × AuthConfig)
  BuildArgs : List (String × Option String)
  deriving DecidableEq, Repr

/-- `types.ImagePullOptions`, restricted to the field this package could set
(the zero value leaves `RegistryAuth` empty). -/
structure ImagePullOptions where
  RegistryAuth : String
  deriving DecidableEq, Repr

/-- `types.ImagePushOptions`, restricted to the field this package sets. -/
structure ImagePushOptions where
  RegistryAuth : String
  deriving DecidableEq, Repr

/-- One call made to the external engine client. -/
inductive Request where
  | build (opts : ImageBuildOptions)
  | pull (image : String) (opts : ImagePullOptions)
  | push (image : String) (opts : ImagePushOptions)
  | listImages (filterArgs : List (String × String))
  | tag (image newImage : String)
  | rmi (image : String)
  deriving DecidableEq, Repr

/-- An engine response carrying a stream: the response body (`none` models a
nil `io.ReadCloser`) and the call's error. -/
structure EngineResp where
  body : Option RespStream
  err : Option GoError
  deriving DecidableEq, Repr

/-- How an operation finishes: a normal return with its error value, or a
runtime panic (nil dereference). -/
inductive Outcome where
  | ret (err : Option GoError)
  | panicked
  deriving DecidableEq, Repr

/-- What one execution of a stream-consuming operation did: the engine calls
it made, whether the response body was closed, and how it finished. -/
structure ExecResult where
  requests : List Request
  closedBody : Bool
  outcome : Outcome
  deriving DecidableEq, Repr

/-- The `types.ImageBuildOptions` literal `Build` passes to `ImageBuild`
(docker.go:112-121). -/
def buildOptions (docker : dockerCmd) (imagePath : String)
    (args : List (String × Option String)) : ImageBuildOptions :=
  { Tags := [imagePath]
    NoCache := docker.noCache
    Remove := true
    ForceRemove := docker.forceRm
    PullParent := docker.pull
    Dockerfile := defaultDockerfile
    AuthConfigs := docker.registryAuthMap
    BuildArgs := args }

/-- Whether `CreateTar` produced a build context. -/
def tarOk : Except GoError TarOptions → Bool
  | .ok _ => true
  | .error _ => false

/-- `Build` (docker.go:103-133).  The tar context is built first; the engine
is then called once with fixed options.  `defer response.Body.Close()` is
registered before the error check, so a nil body is dereferenced when the
deferred close runs (or already by `detectErrorMessage` reading it). -/
def Build (docker : dockerCmd) (env : LibEnv) (fs : FS)
    (contextDirectory imagePath : String) (args : List (String × Option String))
    (engine : ImageBuildOptions → EngineResp) : ExecResult :=
  match CreateTar env fs contextDirectory defaultDockerfile with
  | .error e => { requests := [], closedBody := false, outcome := .ret (some e) }
  | .ok _ =>
    let opts := buildOptions docker imagePath args
    let resp := engine opts
    match resp.body with
    | none =>
      { requests := [Request.build opts], closedBody := false, outcome := .panicked }
    | some s =>
      match resp.err with
      | some e =>
        { requests := [Request.build opts], closedBody := true, outcome := .ret (some e) }
      | none =>
        { requests := [Request.build opts], closedBody := true,
          outcome := .ret (detectErrorMessage s) }

/-- `Pull` (docker.go:135-150): one engine call with zero-valued pull options
(the `RegistryAuth` assignment is commented out in the source); the response
is closed only when non-nil; the stream is then scanned. -/
def Pull (_docker : dockerCmd) (imagePath : String)
    (engine : String → ImagePullOptions → EngineResp) : ExecResult :=
  let opts : ImagePullOptions := { RegistryAuth := "" }
  let resp := engine imagePath opts
  let req := Request.pull imagePath opts
  match resp.err with
  | some e => { requests := [req], closedBody := resp.body.isSome, outcome := .ret (some e) }
  | none =>
    match resp.body with
    | none => { requests := [req], closedBody := false, outcome := .panicked }
    | some s => { requests := [req], closedBody := true, outcome := .ret (detectErrorMessage s) }

/-- `Push` (docker.go:152-168): like `Pull`, but the push options carry the
client's `registryAuthString`. -/
def Push (docker : dockerCmd) (imagePath : String)
    (engine : String → ImagePushOptions → EngineResp) : ExecResult :=
  let opts : ImagePushOptions := { RegistryAuth := docker.registryAuthString }
  let resp := engine imagePath opts
  let req := Request.push imagePath opts
  match resp.err with
  | some e => { requests := [req], closedBody := resp.body.isSome, outcome := .ret (some e) }
  | none =>
    match resp.body with
    | none => { requests := [req], closedBody := false, outcome := .panicked }
    | some s => { requests := [req], closedBody := true, outcome := .ret (detectErrorMessage s) }

/-- `types.ImageSummary` as returned by the engine client's `ImageList`. -/
structure EngineImageSummary where
  Containers : Int
  Created : Int
  ID : String
  Labels : List (String × String)
  ParentID : String
  RepoDigests : List String
  RepoTags : List String
  SharedSize : Int
  Size : Int
  VirtualSize : Int
  deriving DecidableEq, Repr

/-- `ImageSummary` (docker.go:32-43). -/
structure ImageSummary where
  Containers : Int
  Created : Int
  ID : String
  Labels : List (String × String)
  ParentID : String
  RepoDigests : List String
  RepoTags : List String
  SharedSize : Int
  Size : Int
  VirtualSize : Int
  deriving DecidableEq, Repr

/-- The per-record copy `List` performs (docker.go:183-194). -/
def copySummary (s : EngineImageSummary) : ImageSummary :=
  { Containers := s.Containers
    Created := s.Created
    ID := s.ID
    Labels := s.Labels
    ParentID := s.ParentID
    RepoDigests := s.RepoDigests
    RepoTags := s.RepoTags
    SharedSize := s.SharedSize
    Size := s.Size
    VirtualSize := s.VirtualSize }

/-- `filters.NewArgs` plus the `Add` loop (docker.go:171-174), over the
caller's map read as an association list. -/
def buildFilterArgs (filter : List (String × String)) : List (String × String) :=
  filter.foldl (fun args kv => args ++ [kv]) []

/-- `List` (docker.go:170-197), named `ListImages` here to avoid shadowing
`List`: one `ImageList` call with the forwarded filters, then a field-by-field
copy of every summary in order. -/
def ListImages (_docker : dockerCmd) (filter : List (String × String))
    (engine : List (String × String) → Except GoError (List EngineImageSummary)) :
    List Request × Except GoError (List ImageSummary) :=
  let args := buildFilterArgs filter
  ([Request.listImages args],
   match engine args with
   | .error e => .error e
   | .ok xs => .ok (xs.map copySummary))

/-- `Tag` (docker.go:198-204): one `ImageTag` call, its error returned as
is. -/
def Tag (_docker : dockerCmd) (imagePath newImagePath : String)
    (engine : String → String → Option GoError) : List Request × Option GoError :=
  ([Request.tag imagePath newImagePath], engine imagePath newImagePath)

/-- `Rmi` (docker.go:205-211): one `ImageRemove` call, its delete-response
items discarded and its error returned as is. -/
def Rmi (_docker : dockerCmd) (imagePath : String)
    (engine : String → Option GoError) : List Request × Option GoError :=
  ([Request.rmi imagePath], engine imagePath)

/-! ### Path helper lemmas -/

theorem isAbsPath_ne_empty {p : String} (h : isAbsPath p = true) : p ≠ "" := by
  intro hp
  subst hp
  simp [isAbsPath] at h

theorem isAbsPath_append (a b : String) (h : isAbsPath a = true) :
    isAbsPath (a ++ b) = true := by
  unfold isAbsPath at h ⊢
  rw [String.data_append]
  cases ha : a.data with
  | nil => rw [ha] at h; simp at h
  | cons c l => rw [ha] at h; simpa using h

theorem joinPath_eq (a b : String) (ha : a ≠ "") (hb : b ≠ "") :
    joinPath a b = a ++ "/" ++ b := by
  simp [joinPath, ha, hb]

theorem isAbsPath_joinPath (a b : String) (h : isAbsPath a = true) :
    isAbsPath (joinPath a b) = true := by
  by_cases hb : b = ""
  · simp [joinPath, isAbsPath_ne_empty h, hb, h]
  · rw [joinPath_eq a b (isAbsPath_ne_empty h) hb]
    exact isAbsPath_append _ _ (isAbsPath_append _ _ h)

theorem isAbsPath_fsAbs (fs : FS) (p : String) (h : isAbsPath fs.cwd = true) :
    isAbsPath (fsAbs fs p) = true := by
  unfold fsAbs
  split
  · assumption
  · exact isAbsPath_joinPath _ _ h

theorem fsAbs_of_isAbs (fs : FS) (p : String) (h : isAbsPath p = true) :
    fsAbs fs p = p := by
  simp [fsAbs, h]

theorem relPath_joinPath (a b : String) (ha : a ≠ "") (hb : b ≠ "") :
    relPath a (joinPath a b) = b := by
  rw [joinPath_eq a b ha hb]
  unfold relPath
  have hdata : (a ++ "/" ++ b).data = (a ++ "/").data ++ b.data := by
    simp
  have hpre : (a ++ "/").data.isPrefixOf (a ++ "/" ++ b).data = true := by
    rw [List.isPrefixOf_iff_prefix, hdata]
    exact List.prefix_append _ _
  rw [if_pos hpre]
  have hlen : ((a ++ "/").data).length = a.data.length + 1 := by
    simp
  rw [hdata, List.drop_left' hlen]

/-! ### Concrete fixtures used by witnesses and counterexamples -/

/-- A library environment where no pattern matches and every context
validates. -/
def envNone : LibEnv := ⟨fun _ _ => false, fun _ _ => none⟩

/-- A library environment where every pattern matches and every context
validates. -/
def envAll : LibEnv := ⟨fun _ _ => true, fun _ _ => none⟩

/-- An empty filesystem. -/
def fsEmpty : FS := ⟨"/", [], [], []⟩

/-- A filesystem holding only `/ctx/Dockerfile`. -/
def fsCtx : FS := ⟨"/", ["/ctx/Dockerfile"], [], []⟩

/-- A filesystem holding `/ctx/Dockerfile` and a `.dockerignore` whose single
pattern is `*`. -/
def fsIgnore : FS := ⟨"/", ["/ctx/Dockerfile", "/ctx/.dockerignore"], [], ["*"]⟩

/-- A client built from a concrete configuration. -/
def cmd0 : dockerCmd := NewClient ⟨"tcp://127.0.0.1:2376", "reg.example.com", "alice", "secret"⟩

/-! ### Claim theorems -/

/-- C1: `detectErrorMessage` decodes the stream's messages in order and
returns the first embedded error it encounters (the message's `Error` object
if present, otherwise an error built from its non-empty `ErrorMessage`),
falling back to the terminator's error; it returns `none` exactly when
decoding reaches end-of-stream with no message carrying an embedded error. -/
theorem detectErrorMessage_first_embedded_and_nil_iff (s : RespStream) :
    detectErrorMessage s =
      (s.msgs.findSome? embeddedError).orElse (fun _ => termError s.term) ∧
    (detectErrorMessage s = none ↔
      s.term = StreamTerm.eof ∧ ∀ jm ∈ s.msgs, embeddedError jm = none) :=
  ⟨detectErrorMessage_eq_findSome s, detectErrorMessage_eq_none_iff s⟩

/-- C2 counterexample: `CreateTar` does not return the underlying filesystem
error unmodified — on a missing Dockerfile it replaces the `os.Lstat`
not-exist error with its own `Cannot locate Dockerfile` error. -/
theorem createTar_replaces_missing_dockerfile_error :
    CreateTar envNone fsEmpty "/ctx" "Dockerfile"
      = .error (GoError.msg "Cannot locate Dockerfile: /ctx/Dockerfile") ∧
    GoError.msg "Cannot locate Dockerfile: /ctx/Dockerfile"
      ≠ GoError.notExist "/ctx/Dockerfile" :=
  ⟨rfl, fun h => GoError.noConfusion h⟩

/-- C2 (amended): `Build`, `Pull`, `Push`, `List`, `Tag` and `Rmi` return any
error of the underlying engine call unmodified, and `Build` returns
`CreateTar` errors unmodified; `CreateTar` itself passes the `.dockerignore`
open error through unmodified, but replaces or wraps the underlying error at
its Dockerfile-existence, path-canonicalisation and context-validation
sites. -/
theorem operations_pass_through_errors :
    (∀ (docker : dockerCmd) (img : String)
        (engine : String → ImagePullOptions → EngineResp) (e : GoError),
        (engine img { RegistryAuth := "" }).err = some e →
        (Pull docker img engine).outcome = Outcome.ret (some e)) ∧
    (∀ (docker : dockerCmd) (img : String)
        (engine : String → ImagePushOptions → EngineResp) (e : GoError),
        (engine img { RegistryAuth := docker.registryAuthString }).err = some e →
        (Push docker img engine).outcome = Outcome.ret (some e)) ∧
    (∀ (docker : dockerCmd) (env : LibEnv) (fs : FS) (ctx img : String)
        (args : List (String × Option String)) (engine : ImageBuildOptions → EngineResp)
        (e : GoError),
        CreateTar env fs ctx defaultDockerfile = .error e →
        (Build docker env fs ctx img args engine).outcome = Outcome.ret (some e)) ∧
    (∀ (docker : dockerCmd) (env : LibEnv) (fs : FS) (ctx img : String)
        (args : List (String × Option String)) (t : TarOptions) (s : RespStream)
        (e : GoError),
        CreateTar env fs ctx defaultDockerfile = .ok t →
        (Build docker env fs ctx img args (fun _ => ⟨some s, some e⟩)).outcome
          = Outcome.ret (some e)) ∧
    (∀ (docker : dockerCmd) (a b : String) (engine : String → String → Option GoError),
        (Tag docker a b engine).2 = engine a b) ∧
    (∀ (docker : dockerCmd) (a : String) (engine : String → Option GoError),
        (Rmi docker a engine).2 = engine a) ∧
    (∀ (docker : dockerCmd) (filter : List (String × String))
        (engine : List (String × String) → Except GoError (List EngineImageSummary))
        (e : GoError),
        engine (buildFilterArgs filter) = .error e →
        (ListImages docker filter engine).2 = .error e) ∧
    (∀ (env : LibEnv) (fs : FS) (ctx df : String) (e : GoError),
        lstatExists fs (fsAbs fs (resolveDockerfileName fs ctx df).2) = true →
        openFailure fs (joinPath ctx ".dockerignore") = some e →
        CreateTar env fs ctx df = .error e) := by
  refine ⟨?_, ?_, ?_, ?_, ?_, ?_, ?_, ?_⟩
  · intro docker img engine e h
    simp [Pull, h]
  · intro docker img engine e h
    simp [Push, h]
  · intro docker env fs ctx img args engine e h
    simp [Build, h]
  · intro docker env fs ctx img args t s e h
    simp [Build, h]
  · intro docker a b engine
    rfl
  · intro docker a engine
    rfl
  · intro docker filter engine e h
    simp [ListImages, h]
  · intro env fs ctx df e h1 h2
    simp [CreateTar, readIgnorePatterns, h1, h2]

/-- Witness for the amended C2 theorem at concrete inputs. -/
theorem operations_pass_through_errors_witness :
    (Pull cmd0 "img" (fun _ _ => ⟨none, some (GoError.msg "boom")⟩)).outcome
      = Outcome.ret (some (GoError.msg "boom")) ∧
    CreateTar envNone ⟨"/", ["/ctx/Dockerfile"], [("/ctx/.dockerignore", GoError.msg "io fail")], []⟩
        "/ctx" "Dockerfile" = .error (GoError.msg "io fail") :=
  ⟨operations_pass_through_errors.1 cmd0 "img" _ _ rfl,
   operations_pass_through_errors.2.2.2.2.2.2.2 envNone
     ⟨"/", ["/ctx/Dockerfile"], [("/ctx/.dockerignore", GoError.msg "io fail")], []⟩
     "/ctx" "Dockerfile" _ rfl rfl⟩

/-- C3 counterexample: (i) when `CreateTar` fails, `Build` returns without
making any engine call, so it does not make "exactly one call"; (ii) a stream
whose decoding fails mid-way carries no embedded error marker in any message,
yet a successful `Pull` over it returns a non-nil error. -/
theorem build_zero_calls_and_decode_error_counterexample :
    (Build cmd0 envNone fsEmpty "/ctx" "img" []
        (fun _ => ⟨some ⟨[], StreamTerm.eof⟩, none⟩)).requests = [] ∧
    (Pull cmd0 "img"
        (fun _ _ => ⟨some ⟨[], StreamTerm.decodeFail (GoError.msg "invalid character")⟩, none⟩)).outcome
      = Outcome.ret (some (GoError.msg "invalid character")) ∧
    (([] : List JSONMessage).all fun jm => (embeddedError jm).isNone) = true :=
  ⟨rfl, rfl, rfl⟩

/-- C3 (amended): `Pull` and `Push` make exactly one engine call; `Build`
makes exactly one when `CreateTar` succeeds and none when it fails (returning
the tar error); no operation retries; and each returns nil exactly when the
engine call was made and succeeded and decoding its response stream reached
end-of-stream with no message carrying an embedded error. -/
theorem single_engine_call_and_nil_iff_clean_stream :
    (∀ (docker : dockerCmd) (img : String)
        (engine : String → ImagePullOptions → EngineResp),
        (Pull docker img engine).requests.length = 1) ∧
    (∀ (docker : dockerCmd) (img : String)
        (engine : String → ImagePushOptions → EngineResp),
        (Push docker img engine).requests.length = 1) ∧
    (∀ (docker : dockerCmd) (env : LibEnv) (fs : FS) (ctx img : String)
        (args : List (String × Option String)) (engine : ImageBuildOptions → EngineResp),
        (Build docker env fs ctx img args engine).requests.length
          = if tarOk (CreateTar env fs ctx defaultDockerfile) then 1 else 0) ∧
    (∀ (docker : dockerCmd) (img : String)
        (engine : String → ImagePullOptions → EngineResp),
        (Pull docker img engine).outcome = Outcome.ret none ↔
          (engine img { RegistryAuth := "" }).err = none ∧
          ∃ s : RespStream, (engine img { RegistryAuth := "" }).body = some s ∧
            s.term = StreamTerm.eof ∧ ∀ jm ∈ s.msgs, embeddedError jm = none) ∧
    (∀ (docker : dockerCmd) (img : String)
        (engine : String → ImagePushOptions → EngineResp),
        (Push docker img engine).outcome = Outcome.ret none ↔
          (engine img { RegistryAuth := docker.registryAuthString }).err = none ∧
          ∃ s : RespStream,
            (engine img { RegistryAuth := docker.registryAuthString }).body = some s ∧
            s.term = StreamTerm.eof ∧ ∀ jm ∈ s.msgs, embeddedError jm = none) ∧
    (∀ (docker : dockerCmd) (env : LibEnv) (fs : FS) (ctx img : String)
        (args : List (String × Option String)) (engine : ImageBuildOptions → EngineResp)
        (t : TarOptions),
        CreateTar env fs ctx defaultDockerfile = .ok t →
        ((Build docker env fs ctx img args engine).outcome = Outcome.ret none ↔
          (engine (buildOptions docker img args)).err = none ∧
          ∃ s : RespStream, (engine (buildOptions docker img args)).body = some s ∧
            s.term = StreamTerm.eof ∧ ∀ jm ∈ s.msgs, embeddedError jm = none)) := by
  refine ⟨?_, ?_, ?_, ?_, ?_, ?_⟩
  · intro docker img engine
    unfold Pull
    cases he : (engine img { RegistryAuth := "" }).err
    · cases hb : (engine img { RegistryAuth := "" }).body <;> simp [he, hb]
    · simp [he]
  · intro docker img engine
    unfold Push
    cases he : (engine img { RegistryAuth := docker.registryAuthString }).err
    · cases hb : (engine img { RegistryAuth := docker.registryAuthString }).body <;>
        simp [he, hb]
    · simp [he]
  · intro docker env fs ctx img args engine
    unfold Build
    cases ht : CreateTar env fs ctx defaultDockerfile
    · simp [ht, tarOk]
    · cases hb : (engine (buildOptions docker img args)).body
      · simp [ht, tarOk, hb]
      · cases he : (engine (buildOptions docker img args)).err <;> simp [ht, tarOk, hb, he]
  · intro docker img engine
    unfold Pull
    cases he : (engine img { RegistryAuth := "" }).err with
    | none =>
      cases hb : (engine img { RegistryAuth := "" }).body with
      | none => simp [he, hb]
      | some s => simp [he, hb, detectErrorMessage_eq_none_iff]
    | some e => simp [he]
  · intro docker img engine
    unfold Push
    cases he : (engine img { RegistryAuth := docker.registryAuthString }).err with
    | none =>
      cases hb : (engine img { RegistryAuth := docker.registryAuthString }).body with
      | none => simp [he, hb]
      | some s => simp [he, hb, detectErrorMessage_eq_none_iff]
    | some e => simp [he]
  · intro docker env fs ctx img args engine t ht
    unfold Build
    rw [ht]
    cases hb : (engine (buildOptions docker img args)).body with
    | none => simp [hb]
    | some s =>
      cases he : (engine (buildOptions docker img args)).err with
      | none => simp [hb, he, detectErrorMessage_eq_none_iff]
      | some e => simp [hb, he]

/-- Witness for the amended C3 theorem: a concrete successful build over a
clean stream returns nil. -/
theorem single_engine_call_witness :
    (Build cmd0 envNone fsCtx "/ctx" "img" []
        (fun _ => ⟨some ⟨[], StreamTerm.eof⟩, none⟩)).outcome = Outcome.ret none :=
  (single_engine_call_and_nil_iff_clean_stream.2.2.2.2.2 cmd0 envNone fsCtx "/ctx" "img" []
      (fun _ => ⟨some ⟨[], StreamTerm.eof⟩, none⟩) ⟨[], ["."], "Dockerfile"⟩ rfl).mpr
    ⟨rfl, ⟨[], StreamTerm.eof⟩, rfl, rfl, by simp⟩

/-- C4: code bug.  `Build` registers `defer response.Body.Close()` before
checking the `ImageBuild` error, so when the engine call fails with a nil
body the deferred close dereferences nil and the operation panics instead of
returning the error; `Pull` and `Push` guard their close with a nil check and
return the error normally on the same input. -/
theorem build_panics_on_nil_body :
    (Build cmd0 envNone fsCtx "/ctx" "img" []
        (fun _ => ⟨none, some (GoError.msg "engine down")⟩)).outcome = Outcome.panicked ∧
    (Build cmd0 envNone fsCtx "/ctx" "img" []
        (fun _ => ⟨none, some (GoError.msg "engine down")⟩)).closedBody = false ∧
    (Pull cmd0 "img" (fun _ _ => ⟨none, some (GoError.msg "engine down")⟩)).outcome
      = Outcome.ret (some (GoError.msg "engine down")) ∧
    (Push cmd0 "img" (fun _ _ => ⟨none, some (GoError.msg "engine down")⟩)).outcome
      = Outcome.ret (some (GoError.msg "engine down")) ∧
    (Pull cmd0 "img"
        (fun _ _ => ⟨some ⟨[], StreamTerm.eof⟩, some (GoError.msg "engine down")⟩)).closedBody
      = true ∧
    (Push cmd0 "img"
        (fun _ _ => ⟨some ⟨[], StreamTerm.eof⟩, some (GoError.msg "engine down")⟩)).closedBody
      = true ∧
    (Build cmd0 envNone fsCtx "/ctx" "img" []
        (fun _ => ⟨some ⟨[], StreamTerm.eof⟩, some (GoError.msg "engine down")⟩)).closedBody
      = true :=
  ⟨rfl, rfl, rfl, rfl, rfl, rfl, rfl⟩

theorem strToLower_Dockerfile : strToLower "Dockerfile" = "dockerfile" := rfl

/-- C5: `CreateTar` checks the Dockerfile path joined to the context
directory and returns a `Cannot locate Dockerfile` error rather than an
archive when it does not exist; an empty dockerfile argument falls back to
`Dockerfile`, uses a lowercase `dockerfile` only when the capitalised name is
absent and the lowercase one exists, and errors with the fallback name when
neither exists. -/
theorem createTar_locates_dockerfile :
    (∀ (env : LibEnv) (fs : FS) (ctx df : String), df ≠ "" →
        lstatExists fs (fsAbs fs (joinPath ctx df)) = false →
        CreateTar env fs ctx df
          = .error (GoError.msg ("Cannot locate Dockerfile: " ++ joinPath ctx df))) ∧
    (∀ (fs : FS) (ctx : String),
        lstatExists fs (joinPath (fsAbs fs ctx) "Dockerfile") = true →
        resolveDockerfileName fs ctx ""
          = ("Dockerfile", joinPath (fsAbs fs ctx) "Dockerfile")) ∧
    (∀ (fs : FS) (ctx : String),
        lstatExists fs (joinPath (fsAbs fs ctx) "Dockerfile") = false →
        lstatExists fs (joinPath (fsAbs fs ctx) "dockerfile") = true →
        resolveDockerfileName fs ctx ""
          = ("dockerfile", joinPath (fsAbs fs ctx) "dockerfile")) ∧
    (∀ (env : LibEnv) (fs : FS) (ctx : String), isAbsPath fs.cwd = true →
        lstatExists fs (joinPath (fsAbs fs ctx) "Dockerfile") = false →
        lstatExists fs (joinPath (fsAbs fs ctx) "dockerfile") = false →
        CreateTar env fs ctx ""
          = .error (GoError.msg "Cannot locate Dockerfile: Dockerfile")) := by
  refine ⟨?_, ?_, ?_, ?_⟩
  · intro env fs ctx df hdf h
    have hres : resolveDockerfileName fs ctx df = (joinPath ctx df, joinPath ctx df) := by
      simp [resolveDockerfileName, hdf]
    simp [CreateTar, hres, h]
  · intro fs ctx h
    simp [resolveDockerfileName, defaultDockerfile, h]
  · intro fs ctx h1 h2
    simp [resolveDockerfileName, defaultDockerfile, strToLower_Dockerfile, h1, h2]
  · intro env fs ctx hcwd h1 h2
    have habs : isAbsPath (joinPath (fsAbs fs ctx) "Dockerfile") = true :=
      isAbsPath_joinPath _ _ (isAbsPath_fsAbs fs ctx hcwd)
    have hres : resolveDockerfileName fs ctx ""
        = ("Dockerfile", joinPath (fsAbs fs ctx) "Dockerfile") := by
      simp [resolveDockerfileName, defaultDockerfile, strToLower_Dockerfile, h1, h2]
    have hfix : fsAbs fs (joinPath (fsAbs fs ctx) "Dockerfile")
        = joinPath (fsAbs fs ctx) "Dockerfile" := fsAbs_of_isAbs _ _ habs
    simp [CreateTar, hres, hfix, h1, defaultDockerfile]

/-- Witness for the C5 theorem: the missing-Dockerfile error path and the
lowercase fallback at concrete inputs. -/
theorem createTar_locates_dockerfile_witness :
    CreateTar envNone fsEmpty "/ctx" "Dockerfile"
      = .error (GoError.msg ("Cannot locate Dockerfile: " ++ joinPath "/ctx" "Dockerfile")) ∧
    resolveDockerfileName ⟨"/", ["/ctx/dockerfile"], [], []⟩ "/ctx" ""
      = ("dockerfile",
         joinPath (fsAbs ⟨"/", ["/ctx/dockerfile"], [], []⟩ "/ctx") "dockerfile") :=
  ⟨createTar_locates_dockerfile.1 envNone fsEmpty "/ctx" "Dockerfile" (by decide) rfl,
   createTar_locates_dockerfile.2.2.1 ⟨"/", ["/ctx/dockerfile"], [], []⟩ "/ctx" rfl rfl⟩

/-- C6: a successful `List` returns one `ImageSummary` per engine summary, in
order, with all ten fields copied unchanged. -/
theorem list_copies_summary_fields :
    (∀ s : EngineImageSummary,
        (copySummary s).Containers = s.Containers ∧
        (copySummary s).Created = s.Created ∧
        (copySummary s).ID = s.ID ∧
        (copySummary s).Labels = s.Labels ∧
        (copySummary s).ParentID = s.ParentID ∧
        (copySummary s).RepoDigests = s.RepoDigests ∧
        (copySummary s).RepoTags = s.RepoTags ∧
        (copySummary s).SharedSize = s.SharedSize ∧
        (copySummary s).Size = s.Size ∧
        (copySummary s).VirtualSize = s.VirtualSize) ∧
    (∀ (docker : dockerCmd) (filter : List (String × String))
        (engine : List (String × String) → Except GoError (List EngineImageSummary))
        (xs : List EngineImageSummary),
        engine (buildFilterArgs filter) = .ok xs →
        (ListImages docker filter engine).2 = .ok (xs.map copySummary) ∧
        (xs.map copySummary).length = xs.length ∧
        ∀ i : Nat, (xs.map copySummary)[i]? = xs[i]?.map copySummary) := by
  refine ⟨fun s => ⟨rfl, rfl, rfl, rfl, rfl, rfl, rfl, rfl, rfl, rfl⟩, ?_⟩
  intro docker filter engine xs h
  refine ⟨by simp [ListImages, h], by simp, fun i => by simp⟩

/-- Witness for the C6 theorem at a concrete one-element response. -/
theorem list_copies_summary_fields_witness :
    (ListImages cmd0 []
        (fun _ => .ok [⟨1, 2, "sha256:abc", [("k", "v")], "sha256:parent",
          ["d@sha256:1"], ["repo:tag"], 3, 4, 5⟩])).2
      = .ok [copySummary ⟨1, 2, "sha256:abc", [("k", "v")], "sha256:parent",
          ["d@sha256:1"], ["repo:tag"], 3, 4, 5⟩] :=
  (list_copies_summary_fields.2 cmd0 []
    (fun _ => .ok [⟨1, 2, "sha256:abc", [("k", "v")], "sha256:parent",
      ["d@sha256:1"], ["repo:tag"], 3, 4, 5⟩])
    [⟨1, 2, "sha256:abc", [("k", "v")], "sha256:parent",
      ["d@sha256:1"], ["repo:tag"], 3, 4, 5⟩] rfl).1

theorem Push_requests_eq (docker : dockerCmd) (img : String)
    (engine : String → ImagePushOptions → EngineResp) :
    (Push docker img engine).requests
      = [Request.push img { RegistryAuth := docker.registryAuthString }] := by
  unfold Push
  cases he : (engine img { RegistryAuth := docker.registryAuthString }).err
  · cases hb : (engine img { RegistryAuth := docker.registryAuthString }).body <;>
      simp [he, hb]
  · simp [he]

theorem foldl_append_eq (l acc : List (String × String)) :
    List.foldl (fun a kv => a ++ [kv]) acc l = acc ++ l := by
  induction l generalizing acc with
  | nil => simp
  | cons x xs ih => simp [List.foldl, ih]

theorem buildFilterArgs_eq (filter : List (String × String)) :
    buildFilterArgs filter = filter := by
  simpa [buildFilterArgs] using foldl_append_eq filter []

/-- C7: `List` forwards each caller filter key/value pair verbatim into the
engine's filter arguments, and `Build` passes the caller's build-argument map
unchanged as the engine's `BuildArgs`. -/
theorem filters_and_build_args_forwarded :
    (∀ (filter : List (String × String)) (kv : String × String),
        kv ∈ buildFilterArgs filter ↔ kv ∈ filter) ∧
    (∀ (docker : dockerCmd) (filter : List (String × String))
        (engine : List (String × String) → Except GoError (List EngineImageSummary)),
        (ListImages docker filter engine).1
          = [Request.listImages (buildFilterArgs filter)]) ∧
    (∀ (docker : dockerCmd) (env : LibEnv) (fs : FS) (ctx img : String)
        (args : List (String × Option String)) (engine : ImageBuildOptions → EngineResp),
        (Build docker env fs ctx img args engine).requests
          = if tarOk (CreateTar env fs ctx defaultDockerfile)
            then [Request.build (buildOptions docker img args)] else []) ∧
    (∀ (docker : dockerCmd) (img : String) (args : List (String × Option String)),
        (buildOptions docker img args).BuildArgs = args) := by
  refine ⟨fun filter kv => by simp [buildFilterArgs_eq], fun _ _ _ => rfl, ?_, fun _ _ _ => rfl⟩
  intro docker env fs ctx img args engine
  unfold Build
  cases ht : CreateTar env fs ctx defaultDockerfile with
  | error e => simp [tarOk]
  | ok t =>
    cases hb : (engine (buildOptions docker img args)).body with
    | none => simp [tarOk, hb]
    | some s =>
      cases he : (engine (buildOptions docker img args)).err <;> simp [tarOk, hb, he]

/-- C8: every client built by `NewClient` issues `Build` requests with fixed
options — `NoCache`, `Remove`, `ForceRemove` and `PullParent` always true,
the Dockerfile name always `Dockerfile`, and the tag list exactly the single
image path. -/
theorem newClient_build_options_fixed :
    ∀ (cfg : Configs) (img : String) (args : List (String × Option String)),
      (buildOptions (NewClient cfg) img args).NoCache = true ∧
      (buildOptions (NewClient cfg) img args).Remove = true ∧
      (buildOptions (NewClient cfg) img args).ForceRemove = true ∧
      (buildOptions (NewClient cfg) img args).PullParent = true ∧
      (buildOptions (NewClient cfg) img args).Dockerfile = "Dockerfile" ∧
      (buildOptions (NewClient cfg) img args).Tags = [img] ∧
      ∀ (env : LibEnv) (fs : FS) (ctx : String) (engine : ImageBuildOptions → EngineResp),
        (Build (NewClient cfg) env fs ctx img args engine).requests
          = if tarOk (CreateTar env fs ctx defaultDockerfile)
            then [Request.build (buildOptions (NewClient cfg) img args)] else [] := by
  intro cfg img args
  refine ⟨rfl, rfl, rfl, rfl, rfl, rfl, ?_⟩
  intro env fs ctx engine
  unfold Build
  cases ht : CreateTar env fs ctx defaultDockerfile with
  | error e => simp [tarOk]
  | ok t =>
    cases hb : (engine (buildOptions (NewClient cfg) img args)).body with
    | none => simp [tarOk, hb]
    | some s =>
      cases he : (engine (buildOptions (NewClient cfg) img args)).err <;>
        simp [tarOk, hb, he]

/-- C9: every `Pull` request carries an empty `RegistryAuth` (the configured
credentials are never sent), while every `Push` request of a `NewClient`
client carries the base64url encoding of the JSON auth record built from the
configured user and password. -/
theorem pull_no_auth_push_sends_auth :
    (∀ (docker : dockerCmd) (img : String)
        (engine : String → ImagePullOptions → EngineResp),
        (Pull docker img engine).requests
          = [Request.pull img { RegistryAuth := "" }]) ∧
    (∀ (cfg : Configs) (img : String)
        (engine : String → ImagePushOptions → EngineResp),
        (Push (NewClient cfg) img engine).requests
          = [Request.push img
              { RegistryAuth :=
                  base64urlEncode (strBytes (marshalAuthConfig cfg.User cfg.Passwd)) }]) := by
  constructor
  · intro docker img engine
    unfold Pull
    cases he : (engine img { RegistryAuth := "" }).err
    · cases hb : (engine img { RegistryAuth := "" }).body <;> simp [he, hb]
    · simp [he]
  · intro cfg img engine
    rw [Push_requests_eq]
    rfl

/-- The exclusion patterns of a successful `CreateTar` result. -/
def tarExcludes : Except GoError TarOptions → Option (List String)
  | .ok r => some r.excludePatterns
  | .error _ => none

/-- C10: a missing `.dockerignore` is not an error — `CreateTar` proceeds
with an empty exclusion list — and whenever the exclusion patterns match
`.dockerignore` or the dockerfile name, both files are added back to the
include list (which otherwise stays at just `.`). -/
theorem createTar_ignore_missing_ok_and_addback :
    (∀ (env : LibEnv) (fs : FS) (ctx df : String),
        lstatExists fs (fsAbs fs (resolveDockerfileName fs ctx df).2) = true →
        openFailure fs (joinPath ctx ".dockerignore") = none →
        lstatExists fs (joinPath ctx ".dockerignore") = false →
        env.validateContext ctx [] = none →
        tarExcludes (CreateTar env fs ctx df) = some []) ∧
    (∀ (env : LibEnv) (fs : FS) (ctx df : String) (r : TarOptions),
        CreateTar env fs ctx df = .ok r →
        ((env.fileMatches ".dockerignore" r.excludePatterns
            || env.fileMatches r.dockerfileName r.excludePatterns) = true →
          r.includeFiles = [".", ".dockerignore", r.dockerfileName]) ∧
        ((env.fileMatches ".dockerignore" r.excludePatterns
            || env.fileMatches r.dockerfileName r.excludePatterns) = false →
          r.includeFiles = ["."])) := by
  constructor
  · intro env fs ctx df h1 h2 h3 h4
    simp [CreateTar, readIgnorePatterns, tarExcludes, h1, h2, h3, h4]
  · intro env fs ctx df r h
    simp only [CreateTar] at h
    split at h
    · simp at h
    · cases hig : readIgnorePatterns fs ctx with
      | error e => simp [hig] at h
      | ok excl =>
        simp only [hig] at h
        cases hv : env.validateContext ctx excl with
        | some e => simp [hv] at h
        | none =>
          simp only [hv] at h
          simp only [Except.ok.injEq] at h
          subst h
          constructor
          · intro hc
            simp only at hc
            simp [hc]
          · intro hc
            simp only at hc
            simp [hc]

/-- Witness for the C10 theorem: a concrete `.dockerignore` whose pattern
excludes everything forces the add-back, and a concrete context without a
`.dockerignore` archives with no exclusions. -/
theorem createTar_ignore_missing_ok_and_addback_witness :
    (⟨["*"], [".", ".dockerignore", "Dockerfile"], "Dockerfile"⟩ : TarOptions).includeFiles
      = [".", ".dockerignore",
         (⟨["*"], [".", ".dockerignore", "Dockerfile"], "Dockerfile"⟩ : TarOptions).dockerfileName] ∧
    tarExcludes (CreateTar envNone fsCtx "/ctx" "Dockerfile") = some [] :=
  ⟨(createTar_ignore_missing_ok_and_addback.2 envAll fsIgnore "/ctx" "Dockerfile"
      ⟨["*"], [".", ".dockerignore", "Dockerfile"], "Dockerfile"⟩ rfl).1 rfl,
   createTar_ignore_missing_ok_and_addback.1 envNone fsCtx "/ctx" "Dockerfile"
      rfl rfl rfl rfl⟩

end GoDocker
